import Mathlib

/-!
Verification of the BAR (Backup and Restore) tools module
(`teradata_mcp_server/tools/bar/bar_tools.py`).

The module is a set of adapter functions around a remote DSA REST service.
Each mutating operation performs at most one GET (fetch of the current
collection) followed by at most one POST/DELETE (write).  We embed each
operation as a pure Lean function: the remote collaborator
(`dsa_client._make_request`) is passed in as explicit arguments — the fetch
result is an `Except String ListResp` (a transport exception carries its
message in the `error` case) and the write response is a record of the JSON
fields the code reads.  Each embedded operation returns both the data of the
write request it issued (if any) and the lines of the string it returns, so
that theorems can speak about "no write was issued" and about the message
text.
-/

namespace BarTools

/-- Python truthy/falsy rendering of a boolean inside an f-string. -/
def pyBool (b : Bool) : String := if b then "True" else "False"

/-- Python rendering of an `Option String` inside an f-string
(`None` prints as `"None"`). -/
def pyStr : Option String → String
  | none => "None"
  | some s => s

/-- Python `f"'{s}'"`: the value surrounded by single quotes. -/
def pyQ (s : String) : String := "\x27" ++ s ++ "\x27"

/-- The `"=" * 50` separator line used by every disk-file-system formatter. -/
def eqLine : String := String.mk (List.replicate 50 '=')

/-- One entry of a validation list: the code reads `code`, `message` and
`valStatus` with `dict.get`, so each field is optional. -/
structure VErr where
  code : Option String
  message : Option String
  valStatus : Option String
deriving DecidableEq, Repr

/-- The `validationlist` object of a response:
`serverValidationList` and `clientValidationList`, each read with
`dict.get(..., [])` so an absent list is the empty list. -/
structure VList where
  serverValidationList : List VErr
  clientValidationList : List VErr
deriving DecidableEq, Repr

/-- The fields of a write (POST/DELETE) response that the module reads:
`status` (`response.get('status')`), `valid` (`response.get('valid', False)`)
and `validationlist`.  `validationlist = none` models an absent or
Python-falsy (empty dict) `validationlist`. -/
structure WriteResp where
  status : Option String
  valid : Option Bool
  validationlist : Option VList
deriving DecidableEq, Repr

/-- One disk file system item.  The code reads `fs.get('fileSystemPath')`
and `fs.get('maxFiles', 'N/A')`; any other dict entries are carried through
untouched, modelled by the opaque `extra` field. -/
structure FSItem where
  fileSystemPath : Option String
  maxFiles : Option Int
  extra : List (String × String)
deriving DecidableEq, Repr

/-- The fields of the GET (list) response that the code reads:
`existing_response.get('status')` and
`existing_response.get('fileSystems', [])`. -/
structure ListResp where
  status : Option String
  fileSystems : List FSItem
deriving DecidableEq, Repr

/-- Outcome of a mutating disk-file-system operation: the `fileSystems`
data of the POST if one was issued, and the lines of the returned string
(the Python function returns `"\n".join(lines)`). -/
structure MutOutcome where
  submitted : Option (List FSItem)
  lines : List String
deriving DecidableEq, Repr

/-- The item `{"fileSystemPath": path, "maxFiles": max_files}` built by
`config_disk_file_system` (lines 137-140 and 149-152). -/
def newFSItem (path : String) (maxFiles : Int) : FSItem :=
  { fileSystemPath := some path, maxFiles := some maxFiles, extra := [] }

/-- The validation-details block appended by `config_disk_file_system`
(lines 191-204) and `remove_disk_file_system` (lines 404-417) when the
write failed: shown only when `response.get('validationlist')` is truthy;
three lines per server error, one line per client error. -/
def validationLines (resp : WriteResp) : List String :=
  match resp.validationlist with
  | none => []
  | some v =>
      ["", "🔍 Validation Details:"]
      ++ (if v.serverValidationList.isEmpty then [] else
            v.serverValidationList.flatMap (fun e =>
              ["❌ Server Error: " ++ e.message.getD "Unknown error",
               "   Code: " ++ e.code.getD "N/A",
               "   Status: " ++ e.valStatus.getD "N/A"]))
      ++ (if v.clientValidationList.isEmpty then [] else
            v.clientValidationList.map (fun e =>
              "❌ Client Error: " ++ e.message.getD "Unknown error"))

/-- The item substituted for `fs` by the merge loop of
`config_disk_file_system` (lines 134-145): a matching item is replaced by
the fresh `{path, max_files}` item, any other item is kept unchanged. -/
def replaceItem (path : String) (maxFiles : Int) (fs : FSItem) : FSItem :=
  if fs.fileSystemPath == some path then newFSItem path maxFiles else fs

/-- The merge loop of `config_disk_file_system` (lines 130-153): every
existing item whose `fileSystemPath` equals the candidate path is replaced
by the fresh `{path, max_files}` item, all other items are kept unchanged
in order; if no item matched, the fresh item is appended at the end. -/
def mergedFileSystems (path : String) (maxFiles : Int)
    (existing : List FSItem) : List FSItem :=
  existing.map (replaceItem path maxFiles)
  ++ (if existing.any (fun fs => fs.fileSystemPath == some path) then []
      else [newFSItem path maxFiles])

/-- `config_disk_file_system(file_system_path, max_files)` (lines 96-214).
The fetch phase (lines 112-128) treats both a transport exception and a
non-`LIST_DISK_FILE_SYSTEMS_SUCCESSFUL` status as "no existing file
systems" (`existing_file_systems = []`) and falls through to the merge and
the POST; the POST (lines 163-167) is always issued with the merged
collection, and the returned lines follow lines 171-210. -/
def configDiskFileSystem (path : String) (maxFiles : Int)
    (fetch : Except String ListResp) (resp : WriteResp) : MutOutcome :=
  let existing : List FSItem :=
    match fetch with
    | .error _ => []
    | .ok r =>
        if r.status == some "LIST_DISK_FILE_SYSTEMS_SUCCESSFUL"
        then r.fileSystems else []
  let pathExists := existing.any (fun fs => fs.fileSystemPath == some path)
  let toConfigure := mergedFileSystems path maxFiles existing
  let header : List String :=
    ["🗂️ DSA Disk File System Configuration",
     eqLine,
     "📁 File System Path: " ++ path,
     "📄 Max Files: " ++ toString maxFiles,
     "📊 Total File Systems: " ++ toString toConfigure.length,
     "🔄 Operation: " ++ (if pathExists then "Update" else "Add"),
     ""]
  let body : List String :=
    if resp.status == some "CONFIG_DISK_FILE_SYSTEM_SUCCESSFUL" then
      ["✅ Disk file system configured successfully",
       "📊 Status: " ++ pyStr resp.status,
       "✔️ Valid: " ++ pyBool (resp.valid.getD false)]
    else
      ["❌ Failed to configure disk file system",
       "📊 Status: " ++ resp.status.getD "Unknown",
       "✔️ Valid: " ++ pyBool (resp.valid.getD false)]
      ++ validationLines resp
  let footer : List String :=
    ["", eqLine, "✅ Disk file system configuration operation completed"]
  { submitted := some toConfigure, lines := header ++ (body ++ footer) }

/-- `remove_disk_file_system(file_system_path)` (lines 290-427).  A fetch
transport exception returns at line 327 and a non-successful list status
returns at line 323, both without a POST; a missing target path returns the
not-found block of lines 343-357 without a POST; otherwise the kept items
(the fetched collection minus every matching item, lines 329-339) are
POSTed and the result follows lines 375-423. -/
def removeDiskFileSystem (path : String)
    (fetch : Except String ListResp) (resp : WriteResp) : MutOutcome :=
  match fetch with
  | .error e =>
      { submitted := none,
        lines := ["❌ Error retrieving existing file systems: " ++ e] }
  | .ok r =>
      if !(r.status == some "LIST_DISK_FILE_SYSTEMS_SUCCESSFUL") then
        { submitted := none,
          lines := ["❌ Could not retrieve existing file systems to remove "
                      ++ pyQ path] }
      else
        let existing := r.fileSystems
        let pathExists := existing.any (fun fs => fs.fileSystemPath == some path)
        let keep := existing.filter (fun fs => !(fs.fileSystemPath == some path))
        if !pathExists then
          { submitted := none,
            lines :=
              ["🗂️ DSA Disk File System Removal",
               eqLine,
               "❌ File system " ++ pyQ path ++ " not found",
               "",
               "📋 Available file systems:"]
              ++ (if existing.isEmpty then ["   (No file systems configured)"]
                  else existing.map (fun fs =>
                    "   • " ++ fs.fileSystemPath.getD "N/A"))
              ++ ["", eqLine] }
        else
          let header : List String :=
            ["🗂️ DSA Disk File System Removal",
             eqLine,
             "📁 Removed File System: " ++ path,
             "📊 Remaining File Systems: " ++ toString keep.length,
             ""]
          let body : List String :=
            if resp.status == some "CONFIG_DISK_FILE_SYSTEM_SUCCESSFUL" then
              ["✅ Disk file system removed successfully",
               "📊 Status: " ++ pyStr resp.status,
               "✔️ Valid: " ++ pyBool (resp.valid.getD false)]
              ++ (if keep.isEmpty then
                    ["", "📋 No file systems remaining (all removed)"]
                  else
                    ["", "📋 Remaining file systems:"]
                    ++ keep.map (fun fs =>
                      "   • " ++ fs.fileSystemPath.getD "N/A"
                        ++ " (Max Files: "
                        ++ (match fs.maxFiles with
                            | none => "N/A"
                            | some n => toString n)
                        ++ ")"))
            else
              ["❌ Failed to remove disk file system",
               "📊 Status: " ++ resp.status.getD "Unknown",
               "✔️ Valid: " ++ pyBool (resp.valid.getD false)]
              ++ validationLines resp
          let footer : List String :=
            ["", eqLine, "✅ Disk file system removal operation completed"]
          { submitted := some keep, lines := header ++ (body ++ footer) }

/-- The string returned by `config_disk_file_system`
(`"\n".join(results)`, line 210). -/
def configDiskFileSystemMsg (path : String) (maxFiles : Int)
    (fetch : Except String ListResp) (resp : WriteResp) : String :=
  String.intercalate "\n" (configDiskFileSystem path maxFiles fetch resp).lines

/-- The string returned by `remove_disk_file_system`
(`"\n".join(results)` or a direct f-string, lines 323, 327, 357, 423). -/
def removeDiskFileSystemMsg (path : String)
    (fetch : Except String ListResp) (resp : WriteResp) : String :=
  String.intercalate "\n" (removeDiskFileSystem path fetch resp).lines

/-- Whether the character list `pat` occurs contiguously in `cs`. -/
def charsContain (pat : List Char) : List Char → Bool
  | [] => pat.isPrefixOf []
  | c :: rest => pat.isPrefixOf (c :: rest) || charsContain pat rest

/-- Whether `pat` occurs as a substring of `s`. -/
def containsSub (s pat : String) : Bool :=
  charsContain pat.data s.data

/-! ## AWS S3 backup configuration operations -/

/-- A JSON value, used for the opaque payloads that the code passes through
without inspecting field-by-field (`bucketsByRegion`, `ipInfo` entries). -/
inductive JVal where
  | null : JVal
  | bool : Bool → JVal
  | num : Int → JVal
  | str : String → JVal
  | arr : List JVal → JVal
  | obj : List (String × JVal) → JVal
deriving Repr

/-- Python truthiness of a JSON value (`None`, `False`, `0`, `""`, `[]`,
`\x7b\x7d` are falsy). -/
def JVal.truthy : JVal → Bool
  | .null => false
  | .bool b => b
  | .num n => n != 0
  | .str s => s != ""
  | .arr xs => !xs.isEmpty
  | .obj fs => !fs.isEmpty

/-- Python `not x` on an optional string argument: `None` and `""` are falsy. -/
def optTruthyStr : Option String → Bool
  | none => false
  | some s => s != ""

/-- Python `not x` on an optional JSON-valued argument. -/
def optTruthyJ : Option JVal → Bool
  | none => false
  | some v => v.truthy

/-- The `configAwsRest` object POSTed by the S3 config operation
(lines 639-649): the five caller fields plus the two hardcoded
`viewpoint` booleans. -/
structure AwsConfigRest where
  accessId : String
  accessKey : String
  bucketsByRegion : JVal
  bucketName : String
  acctName : String
  viewpoint : Bool
  viewpointBucketRegion : Bool
deriving Repr

/-- Outcome of `manage_AWS_S3_backup_configurations`: the `configAwsRest`
data of the POST if one was issued, and the returned string. -/
structure S3Outcome where
  submitted : Option AwsConfigRest
  message : String
deriving Repr

/-- `manage_AWS_S3_backup_configurations` (lines 589-672).  `writeResult`
is the outcome of the POST of the config branch: `.ok respText` carries the
textual rendering of the response dict interpolated into the f-string at
line 656, `.error e` a raised exception's message (line 658).  `listResult`
stands for the string returned by the read-only
`list_aws_s3_backup_configurations` collaborator (line 625), which no claim
concerns. -/
def manageAwsS3 (operation : String)
    (accessId accessKey : Option String) (bucketsByRegion : Option JVal)
    (bucketName acctName : Option String)
    (writeResult : Except String String) (listResult : String) : S3Outcome :=
  if operation == "list" then
    { submitted := none, message := listResult }
  else if operation == "config" then
    if !optTruthyStr accessId then
      { submitted := none,
        message := "❌ Error: accessId is required for config operation" }
    else if !optTruthyStr accessKey then
      { submitted := none,
        message := "❌ Error: accessKey is required for config operation" }
    else if !optTruthyJ bucketsByRegion then
      { submitted := none,
        message := "❌ Error: bucketsByRegion is required for config operation" }
    else if !optTruthyStr acctName then
      { submitted := none,
        message := "❌ Error: acctName is required for config operation" }
    else if !optTruthyStr bucketName then
      { submitted := none,
        message := "❌ Error: bucketName is required for config operation" }
    else
      let payload : AwsConfigRest :=
        { accessId := accessId.getD ""
          accessKey := accessKey.getD ""
          bucketsByRegion := bucketsByRegion.getD JVal.null
          bucketName := bucketName.getD ""
          acctName := acctName.getD ""
          viewpoint := true
          viewpointBucketRegion := true }
      match writeResult with
      | .ok respText =>
          { submitted := some payload,
            message := "✅ AWS backup solution configuration operation completed\nResponse: "
                        ++ respText }
      | .error e =>
          { submitted := some payload,
            message := "❌ Error configuring AWS backup solution: " ++ e }
  else if operation == "delete_all" then
    { submitted := none,
      message := "❌ Error: " ++ pyQ "delete_all"
                  ++ " operation is not implemented yet for AWS S3 Configuration" }
  else if operation == "remove" then
    { submitted := none,
      message := "❌ Error: " ++ pyQ "remove"
                  ++ " operation is not implemented yet for AWS S3 Configuration" }
  else
    { submitted := none,
      message := "❌ Error: Unknown operation " ++ pyQ operation
                  ++ ". Available operations: list, config, delete_all, remove" }

/-- The metadata dict built by `handle_bar_manageAWSS3Operations`
(lines 1056-1065): note that `bucketName` records the caller-supplied
argument, not the hardcoded value passed to the operation. -/
structure S3Meta where
  tool_name : String
  operation : String
  accessId : Option String
  accessKey : Option String
  bucketsByRegion : Option JVal
  bucketName : Option String
  acctName : Option String
  success : Bool
deriving Repr

/-- `handle_bar_manageAWSS3Operations` (lines 1015-1077): calls
`manage_AWS_S3_backup_configurations` with `bucketName="tdedsabucket01"`
hardcoded (line 1053) and wraps the result with the metadata via
`create_response` (modelled as pairing, since `create_response` is an
out-of-scope formatting collaborator). -/
def handleBarManageAWSS3 (operation : String)
    (accessId accessKey : Option String) (bucketsByRegion : Option JVal)
    (bucketName acctName : Option String)
    (writeResult : Except String String) (listResult : String) :
    S3Outcome × S3Meta :=
  let result := manageAwsS3 operation accessId accessKey bucketsByRegion
      (some "tdedsabucket01") acctName writeResult listResult
  (result,
   { tool_name := "bar_manageAWSS3Operations"
     operation := operation
     accessId := accessId
     accessKey := accessKey
     bucketsByRegion := bucketsByRegion
     bucketName := bucketName
     acctName := acctName
     success := true })

/-! ## Media server operations -/

/-- A request issued by a media-server operation: HTTP method, endpoint,
query parameters and JSON payload (an object given as key/value pairs). -/
structure MSRequest where
  method : String
  endpoint : String
  params : List (String × String)
  payload : Option (List (String × JVal))
deriving Repr

/-- Outcome of a media-server operation: the requests it issued (in order)
and the returned string. -/
structure MSOutcome where
  requests : List MSRequest
  message : String
deriving Repr

/-- The error lines collected by every media-server operation when
`response.get("valid", False)` is falsy (e.g. lines 874-882): client
errors first, then server errors, one `Code ...: ...` line each. -/
def msErrorLines (resp : WriteResp) : List String :=
  match resp.validationlist with
  | none => []
  | some v =>
      (v.clientValidationList ++ v.serverValidationList).map (fun e =>
        "Code " ++ e.code.getD "N/A" ++ ": " ++ e.message.getD "Unknown error")

/-- Models `json.dumps(response, indent=2)` restricted to the response
fields the embedding carries (the success branches return the raw response
rendered as JSON; no claim depends on the exact rendering). -/
def jsonDumps2 (resp : WriteResp) : String :=
  "\x7b\n  \"status\": "
    ++ (match resp.status with
        | none => "null"
        | some s => "\"" ++ s ++ "\"")
    ++ ",\n  \"valid\": "
    ++ (match resp.valid with
        | none => "null"
        | some b => if b then "true" else "false")
    ++ "\n\x7d"

/-- The failure text of a media-server operation (e.g. lines 883-887): the
collected error lines after the operation-specific failure banner, or the
banner with the raw status when there are none. -/
def msFailureText (failBanner : String) (resp : WriteResp) : String :=
  let errs := msErrorLines resp
  if !errs.isEmpty then
    failBanner ++ ":\n" ++ String.intercalate "\n" errs
  else
    failBanner ++ ": " ++ resp.status.getD "Unknown error"

/-- The shared result shape of every media-server operation (e.g.
lines 874-890): the failure text when `response.get("valid", False)` is
falsy, the dumped response otherwise. -/
def msResult (failBanner : String) (resp : WriteResp) : String :=
  if !(resp.valid.getD false) then msFailureText failBanner resp
  else jsonDumps2 resp

/-- `_delete_media_server(server_name, virtual)` (lines 862-894): issues a
DELETE to `dsa/components/mediaservers/{server_name}` (with
`virtual=true` as a query parameter when requested) and formats the
response. -/
def deleteMediaServer (serverName : String) (virtual : Bool)
    (resp : WriteResp) : MSOutcome :=
  let params := if virtual then [("virtual", "true")] else []
  { requests := [{ method := "DELETE"
                   endpoint := "dsa/components/mediaservers/" ++ serverName
                   params := params
                   payload := none }],
    message := msResult ("❌ Failed to delete media server " ++ pyQ serverName) resp }

/-- The `delete` route of `manage_dsa_media_servers` (lines 724-727):
requires a truthy `server_name`, then calls `_delete_media_server` with
`virtual or False`. -/
def manageMediaServerDeleteRoute (serverName : Option String)
    (virtual : Option Bool) (resp : WriteResp) : MSOutcome :=
  if !optTruthyStr serverName then
    { requests := [],
      message := "❌ server_name is required for " ++ pyQ "delete" ++ " operation" }
  else
    deleteMediaServer (serverName.getD "") (virtual.getD false) resp

/-- A Python dict with string keys and string values, as the elements of
the parsed `ip_addresses` list are (type hint `List[Dict[str, str]]`). -/
def PyStrDict : Type := List (String × String)

instance : DecidableEq PyStrDict := by
  unfold PyStrDict; exact inferInstance

/-- `_add_media_server(server_name, port, ip_list, pool_shared_pipes)`
(lines 801-859): validates the inputs (empty-after-strip name, port range,
empty list, entries missing `ipAddress`/`netmask` keys each return an error
with no request), then POSTs the payload built at lines 825-829 —
`serverName` (stripped), `port` and `ipInfo` only; `pool_shared_pipes` is
never used. -/
def addMediaServer (serverName : String) (port : Int)
    (ipList : List PyStrDict) (poolSharedPipes : Int)
    (resp : WriteResp) : MSOutcome :=
  if serverName == "" || serverName.trim == "" then
    { requests := [], message := "❌ Server name is required and cannot be empty" }
  else if !(1 ≤ port && port ≤ 65535) then
    { requests := [], message := "❌ Port must be between 1 and 65535" }
  else if ipList.isEmpty then
    { requests := [], message := "❌ At least one IP address is required" }
  else if ipList.any (fun d =>
      !((d.any (fun p => p.1 == "ipAddress")) && (d.any (fun p => p.1 == "netmask")))) then
    { requests := [],
      message := "❌ Each IP address must be a dictionary with "
                  ++ pyQ "ipAddress" ++ " and " ++ pyQ "netmask" ++ " keys" }
  else
    let payload : List (String × JVal) :=
      [("serverName", JVal.str serverName.trim),
       ("port", JVal.num port),
       ("ipInfo", JVal.arr (ipList.map (fun d =>
          JVal.obj (d.map (fun p => (p.1, JVal.str p.2))))))]
    { requests := [{ method := "POST"
                     endpoint := "dsa/components/mediaservers"
                     params := []
                     payload := some payload }],
      message := msResult ("❌ Failed to add media server " ++ pyQ serverName) resp }

/-! ## Helper lemmas about the merge of `config_disk_file_system` -/

theorem mergedFileSystems_eq (path : String) (m : Int) (l : List FSItem) :
    mergedFileSystems path m l
      = l.map (replaceItem path m)
        ++ (if l.any (fun fs => fs.fileSystemPath == some path) then []
            else [newFSItem path m]) := rfl

/-- Substitution does not change the key of an item: the replacement item
carries the very key that was matched. -/
theorem replaceItem_path (path : String) (m : Int) (fs : FSItem) :
    (replaceItem path m fs).fileSystemPath = fs.fileSystemPath := by
  by_cases h : fs.fileSystemPath = some path
  · simp [replaceItem, h, newFSItem]
  · simp [replaceItem, h]

/-- Substitution does not change whether an item matches. -/
theorem replaceItem_matches (path : String) (m : Int) (fs : FSItem) :
    ((replaceItem path m fs).fileSystemPath == some path)
      = (fs.fileSystemPath == some path) := by
  rw [replaceItem_path]

/-- Replacing matching items does not change the key sequence. -/
theorem keys_map_replace (path : String) (m : Int) (l : List FSItem) :
    (l.map (replaceItem path m)).map FSItem.fileSystemPath
      = l.map FSItem.fileSystemPath := by
  rw [List.map_map]
  have h : FSItem.fileSystemPath ∘ replaceItem path m = FSItem.fileSystemPath :=
    funext (replaceItem_path path m)
  rw [h]

/-- Replacing matching items does not change how many items match. -/
theorem countP_map_replace (path : String) (m : Int) (l : List FSItem) :
    (l.map (replaceItem path m)).countP (fun fs => fs.fileSystemPath == some path)
      = l.countP (fun fs => fs.fileSystemPath == some path) := by
  rw [List.countP_map]
  have h : ((fun fs : FSItem => fs.fileSystemPath == some path) ∘ replaceItem path m)
      = fun fs : FSItem => fs.fileSystemPath == some path :=
    funext (replaceItem_matches path m)
  rw [h]

/-- When no item matches, the substitution map is the identity. -/
theorem map_replace_of_no_match (path : String) (m : Int) (l : List FSItem)
    (h : ∀ fs ∈ l, fs.fileSystemPath ≠ some path) :
    l.map (replaceItem path m) = l := by
  induction l with
  | nil => rfl
  | cons fs t ih =>
      have h₁ : fs.fileSystemPath ≠ some path := h fs (by simp)
      simp only [List.map_cons, replaceItem, h₁, beq_iff_eq, if_neg,
        not_false_iff]
      rw [ih (fun x hx => h x (by simp [hx]))]

/-- In a collection with pairwise-distinct keys, the number of items
matching a present key is exactly one. -/
theorem countP_eq_one_of_nodup_keys (path : String) (l : List FSItem)
    (hnd : (l.map FSItem.fileSystemPath).Nodup)
    (hex : ∃ fs ∈ l, fs.fileSystemPath = some path) :
    l.countP (fun fs => fs.fileSystemPath == some path) = 1 := by
  induction l with
  | nil => simp at hex
  | cons fs t ih =>
      simp only [List.map_cons, List.nodup_cons] at hnd
      by_cases h : fs.fileSystemPath = some path
      · have ht : t.countP (fun fs => fs.fileSystemPath == some path) = 0 := by
          apply List.countP_eq_zero.mpr
          intro x hx
          simp only [beq_iff_eq]
          intro hp
          exact hnd.1 (h ▸ hp ▸ List.mem_map_of_mem FSItem.fileSystemPath hx)
        simp [List.countP_cons, h, ht]
      · have hex' : ∃ x ∈ t, x.fileSystemPath = some path := by
          obtain ⟨x, hx, hp⟩ := hex
          rcases List.mem_cons.mp hx with rfl | hx'
          · exact absurd hp h
          · exact ⟨x, hx', hp⟩
        simp [List.countP_cons, h, ih hnd.2 hex']

/-- After a merge of a collection with pairwise-distinct keys, the match
count for the candidate key is exactly one. -/
theorem mergedFileSystems_countP (path : String) (m : Int) (l : List FSItem)
    (hnd : (l.map FSItem.fileSystemPath).Nodup) :
    (mergedFileSystems path m l).countP
        (fun fs => fs.fileSystemPath == some path) = 1 := by
  by_cases hex : ∃ fs ∈ l, fs.fileSystemPath = some path
  · have hany : l.any (fun fs => fs.fileSystemPath == some path) = true := by
      simp only [List.any_eq_true, beq_iff_eq]
      exact hex
    rw [mergedFileSystems_eq, hany, if_pos rfl, List.append_nil,
      countP_map_replace]
    exact countP_eq_one_of_nodup_keys path l hnd hex
  · have hany : l.any (fun fs => fs.fileSystemPath == some path) = false := by
      simp only [List.any_eq_false, beq_iff_eq]
      intro fs hfs
      exact fun hp => hex ⟨fs, hfs, hp⟩
    have hcount : l.countP (fun fs => fs.fileSystemPath == some path) = 0 := by
      apply List.countP_eq_zero.mpr
      intro fs hfs
      simp only [beq_iff_eq]
      exact fun hp => hex ⟨fs, hfs, hp⟩
    have hcount0 : (l.map (replaceItem path m)).countP
        (fun fs => fs.fileSystemPath == some path) = 0 := by
      rw [countP_map_replace]
      exact hcount
    rw [mergedFileSystems_eq, hany, if_neg Bool.false_ne_true,
      List.countP_append, hcount0]
    simp [List.countP_cons, newFSItem]

/-- The merge preserves pairwise distinctness of the keys. -/
theorem mergedFileSystems_keys_nodup (path : String) (m : Int) (l : List FSItem)
    (hnd : (l.map FSItem.fileSystemPath).Nodup) :
    ((mergedFileSystems path m l).map FSItem.fileSystemPath).Nodup := by
  by_cases hex : ∃ fs ∈ l, fs.fileSystemPath = some path
  · have hany : l.any (fun fs => fs.fileSystemPath == some path) = true := by
      simp only [List.any_eq_true, beq_iff_eq]
      exact hex
    rw [mergedFileSystems_eq, hany, if_pos rfl, List.append_nil,
      keys_map_replace]
    exact hnd
  · have hany : l.any (fun fs => fs.fileSystemPath == some path) = false := by
      simp only [List.any_eq_false, beq_iff_eq]
      intro fs hfs
      exact fun hp => hex ⟨fs, hfs, hp⟩
    have hnmem : some path ∉ l.map FSItem.fileSystemPath := by
      intro hmem
      obtain ⟨fs, hfs, hp⟩ := List.mem_map.mp hmem
      exact hex ⟨fs, hfs, hp⟩
    rw [mergedFileSystems_eq, hany]
    simp only [Bool.false_eq_true, if_neg, not_false_iff, List.map_append,
      keys_map_replace]
    rw [List.nodup_append]
    refine ⟨hnd, by simp [newFSItem], ?_⟩
    simp only [newFSItem, List.map_cons, List.map_nil]
    intro a ha hb
    simp only [List.mem_singleton] at hb
    subst hb
    exact hnmem ha

/-- Zipping a list with its image under a map pairs each element with its
image. -/
theorem zip_map_self (f : FSItem → FSItem) (t : List FSItem) :
    ∀ q ∈ t.zip (t.map f), q.2 = f q.1 := by
  induction t with
  | nil => simp
  | cons a s ih =>
      intro q hq
      simp only [List.map_cons, List.zip_cons_cons, List.mem_cons] at hq
      rcases hq with rfl | hq'
      · rfl
      · exact ih q hq'

/-! ## Claim theorems -/

/-- C3: for every fetched collection and candidate item, the collection
submitted by `config_disk_file_system` is the merge of the fetched one: if
no item carries the candidate path the candidate is appended at the end,
and otherwise the submitted collection has the same length and each
position holds the original item unchanged, except that every position
whose item matched the candidate path holds the fresh candidate item. -/
theorem claim_C3_config_upsert (path : String) (m : Int) (r : ListResp)
    (resp : WriteResp)
    (hst : r.status = some "LIST_DISK_FILE_SYSTEMS_SUCCESSFUL") :
    (configDiskFileSystem path m (.ok r) resp).submitted
        = some (mergedFileSystems path m r.fileSystems)
    ∧ ((∀ fs ∈ r.fileSystems, fs.fileSystemPath ≠ some path) →
        mergedFileSystems path m r.fileSystems
          = r.fileSystems ++ [newFSItem path m])
    ∧ ((∃ fs ∈ r.fileSystems, fs.fileSystemPath = some path) →
        (mergedFileSystems path m r.fileSystems).length = r.fileSystems.length
        ∧ ∀ q ∈ r.fileSystems.zip (mergedFileSystems path m r.fileSystems),
            q.2 = if q.1.fileSystemPath = some path then newFSItem path m
                  else q.1) := by
  refine ⟨by simp [configDiskFileSystem, hst], ?_, ?_⟩
  · intro h
    have hany : r.fileSystems.any
        (fun fs => fs.fileSystemPath == some path) = false := by
      simp only [List.any_eq_false, beq_iff_eq]
      exact h
    rw [mergedFileSystems_eq, hany, if_neg Bool.false_ne_true,
      map_replace_of_no_match path m _ h]
  · intro hex
    have hany : r.fileSystems.any
        (fun fs => fs.fileSystemPath == some path) = true := by
      simp only [List.any_eq_true, beq_iff_eq]
      exact hex
    rw [mergedFileSystems_eq, hany, if_pos rfl, List.append_nil]
    refine ⟨by simp, ?_⟩
    intro q hq
    have hrepl := zip_map_self (replaceItem path m) r.fileSystems q hq
    rw [hrepl, replaceItem]
    by_cases h : q.1.fileSystemPath = some path
    · simp [h]
    · simp [h]

/-- Witness for C3 at the collection `[{path: "/a", maxFiles: 1},
{path: "/b", maxFiles: 2}]` with candidate `("/a", 9)`. -/
theorem claim_C3_witness :
    ((some "LIST_DISK_FILE_SYSTEMS_SUCCESSFUL" : Option String)
        = some "LIST_DISK_FILE_SYSTEMS_SUCCESSFUL")
    ∧ ((configDiskFileSystem "/a" 9
          (.ok { status := some "LIST_DISK_FILE_SYSTEMS_SUCCESSFUL",
                 fileSystems := [⟨some "/a", some 1, []⟩, ⟨some "/b", some 2, []⟩] })
          { status := none, valid := none, validationlist := none }).submitted
        = some (mergedFileSystems "/a" 9
            [⟨some "/a", some 1, []⟩, ⟨some "/b", some 2, []⟩])
      ∧ ((∀ fs ∈ [(⟨some "/a", some 1, []⟩ : FSItem), ⟨some "/b", some 2, []⟩],
            fs.fileSystemPath ≠ some "/a") →
          mergedFileSystems "/a" 9
              [⟨some "/a", some 1, []⟩, ⟨some "/b", some 2, []⟩]
            = [⟨some "/a", some 1, []⟩, ⟨some "/b", some 2, []⟩]
                ++ [newFSItem "/a" 9])
      ∧ ((∃ fs ∈ [(⟨some "/a", some 1, []⟩ : FSItem), ⟨some "/b", some 2, []⟩],
            fs.fileSystemPath = some "/a") →
          (mergedFileSystems "/a" 9
              [⟨some "/a", some 1, []⟩, ⟨some "/b", some 2, []⟩]).length
            = ([(⟨some "/a", some 1, []⟩ : FSItem), ⟨some "/b", some 2, []⟩]).length
          ∧ ∀ q ∈ ([(⟨some "/a", some 1, []⟩ : FSItem), ⟨some "/b", some 2, []⟩]).zip
                (mergedFileSystems "/a" 9
                  [⟨some "/a", some 1, []⟩, ⟨some "/b", some 2, []⟩]),
              q.2 = if q.1.fileSystemPath = some "/a" then newFSItem "/a" 9
                    else q.1)) :=
  ⟨rfl,
   claim_C3_config_upsert "/a" 9
     { status := some "LIST_DISK_FILE_SYSTEMS_SUCCESSFUL",
       fileSystems := [⟨some "/a", some 1, []⟩, ⟨some "/b", some 2, []⟩] }
     { status := none, valid := none, validationlist := none } rfl⟩

/-- C4: for every fetched collection with pairwise-distinct
`fileSystemPath` keys, the collection submitted by
`config_disk_file_system` also has pairwise-distinct keys and contains
exactly one item with the candidate key, and merging the same candidate a
second time again yields exactly one item with that key. -/
theorem claim_C4_config_unique_key (path : String) (m : Int) (r : ListResp)
    (resp : WriteResp)
    (hst : r.status = some "LIST_DISK_FILE_SYSTEMS_SUCCESSFUL")
    (hnd : (r.fileSystems.map FSItem.fileSystemPath).Nodup) :
    (configDiskFileSystem path m (.ok r) resp).submitted
        = some (mergedFileSystems path m r.fileSystems)
    ∧ ((mergedFileSystems path m r.fileSystems).map FSItem.fileSystemPath).Nodup
    ∧ (mergedFileSystems path m r.fileSystems).countP
        (fun fs => fs.fileSystemPath == some path) = 1
    ∧ (mergedFileSystems path m (mergedFileSystems path m r.fileSystems)).countP
        (fun fs => fs.fileSystemPath == some path) = 1 :=
  ⟨by simp [configDiskFileSystem, hst],
   mergedFileSystems_keys_nodup path m r.fileSystems hnd,
   mergedFileSystems_countP path m r.fileSystems hnd,
   mergedFileSystems_countP path m (mergedFileSystems path m r.fileSystems)
     (mergedFileSystems_keys_nodup path m r.fileSystems hnd)⟩

/-- Witness for C4 at the collection `[{path: "/a"}, {path: "/b"}]` with
candidate `("/c", 3)` (an insert, exercising the append branch). -/
theorem claim_C4_witness :
    ((some "LIST_DISK_FILE_SYSTEMS_SUCCESSFUL" : Option String)
        = some "LIST_DISK_FILE_SYSTEMS_SUCCESSFUL")
    ∧ (([(⟨some "/a", some 1, []⟩ : FSItem), ⟨some "/b", some 2, []⟩].map
          FSItem.fileSystemPath).Nodup)
    ∧ ((configDiskFileSystem "/c" 3
          (.ok { status := some "LIST_DISK_FILE_SYSTEMS_SUCCESSFUL",
                 fileSystems := [⟨some "/a", some 1, []⟩, ⟨some "/b", some 2, []⟩] })
          { status := none, valid := none, validationlist := none }).submitted
        = some (mergedFileSystems "/c" 3
            [⟨some "/a", some 1, []⟩, ⟨some "/b", some 2, []⟩])
      ∧ ((mergedFileSystems "/c" 3
            [⟨some "/a", some 1, []⟩, ⟨some "/b", some 2, []⟩]).map
              FSItem.fileSystemPath).Nodup
      ∧ (mergedFileSystems "/c" 3
            [⟨some "/a", some 1, []⟩, ⟨some "/b", some 2, []⟩]).countP
            (fun fs => fs.fileSystemPath == some "/c") = 1
      ∧ (mergedFileSystems "/c" 3 (mergedFileSystems "/c" 3
            [⟨some "/a", some 1, []⟩, ⟨some "/b", some 2, []⟩])).countP
            (fun fs => fs.fileSystemPath == some "/c") = 1) :=
  ⟨rfl, by decide,
   claim_C4_config_unique_key "/c" 3
     { status := some "LIST_DISK_FILE_SYSTEMS_SUCCESSFUL",
       fileSystems := [⟨some "/a", some 1, []⟩, ⟨some "/b", some 2, []⟩] }
     { status := none, valid := none, validationlist := none } rfl (by decide)⟩

/-- C5: for every fetched collection containing no item with the target
path, `remove_disk_file_system` issues no write, reports the distinct
not-found outcome, and its message lists every currently known key. -/
theorem claim_C5_remove_not_found (path : String) (r : ListResp)
    (resp : WriteResp)
    (hst : r.status = some "LIST_DISK_FILE_SYSTEMS_SUCCESSFUL")
    (hno : ∀ fs ∈ r.fileSystems, fs.fileSystemPath ≠ some path) :
    (removeDiskFileSystem path (.ok r) resp).submitted = none
    ∧ ("❌ File system " ++ pyQ path ++ " not found")
        ∈ (removeDiskFileSystem path (.ok r) resp).lines
    ∧ ∀ fs ∈ r.fileSystems,
        ("   • " ++ fs.fileSystemPath.getD "N/A")
          ∈ (removeDiskFileSystem path (.ok r) resp).lines := by
  have hany : r.fileSystems.any
      (fun fs => fs.fileSystemPath == some path) = false := by
    simp only [List.any_eq_false, beq_iff_eq]
    exact hno
  refine ⟨?_, ?_, ?_⟩
  · simp [removeDiskFileSystem, hst, hany]
  · simp [removeDiskFileSystem, hst, hany]
  · intro fs hfs
    have hne : r.fileSystems.isEmpty = false := by
      cases h : r.fileSystems with
      | nil => rw [h] at hfs; simp at hfs
      | cons a t => simp
    have hunfold : (removeDiskFileSystem path (.ok r) resp).lines
        = ["🗂️ DSA Disk File System Removal", eqLine,
           "❌ File system " ++ pyQ path ++ " not found", "",
           "📋 Available file systems:"]
          ++ (if r.fileSystems.isEmpty then ["   (No file systems configured)"]
              else r.fileSystems.map (fun fs =>
                "   • " ++ fs.fileSystemPath.getD "N/A"))
          ++ ["", eqLine] := by
      simp [removeDiskFileSystem, hst, hany]
    have hmem : ("   • " ++ fs.fileSystemPath.getD "N/A")
        ∈ (if r.fileSystems.isEmpty then ["   (No file systems configured)"]
           else r.fileSystems.map (fun fs =>
             "   • " ++ fs.fileSystemPath.getD "N/A")) := by
      rw [hne, if_neg Bool.false_ne_true]
      exact List.mem_map_of_mem _ hfs
    rw [hunfold]
    exact List.mem_append.mpr (Or.inl (List.mem_append.mpr (Or.inr hmem)))

/-- Witness for C5: removing `"/z"` from the collection `[{path: "/a"}]`. -/
theorem claim_C5_witness :
    ((some "LIST_DISK_FILE_SYSTEMS_SUCCESSFUL" : Option String)
        = some "LIST_DISK_FILE_SYSTEMS_SUCCESSFUL")
    ∧ (∀ fs ∈ [(⟨some "/a", some 1, []⟩ : FSItem)],
        fs.fileSystemPath ≠ some "/z")
    ∧ ((removeDiskFileSystem "/z"
          (.ok { status := some "LIST_DISK_FILE_SYSTEMS_SUCCESSFUL",
                 fileSystems := [⟨some "/a", some 1, []⟩] })
          { status := none, valid := none, validationlist := none }).submitted
        = none
      ∧ ("❌ File system " ++ pyQ "/z" ++ " not found")
          ∈ (removeDiskFileSystem "/z"
              (.ok { status := some "LIST_DISK_FILE_SYSTEMS_SUCCESSFUL",
                     fileSystems := [⟨some "/a", some 1, []⟩] })
              { status := none, valid := none, validationlist := none }).lines
      ∧ ∀ fs ∈ [(⟨some "/a", some 1, []⟩ : FSItem)],
          ("   • " ++ fs.fileSystemPath.getD "N/A")
            ∈ (removeDiskFileSystem "/z"
                (.ok { status := some "LIST_DISK_FILE_SYSTEMS_SUCCESSFUL",
                       fileSystems := [⟨some "/a", some 1, []⟩] })
                { status := none, valid := none, validationlist := none }).lines) :=
  ⟨rfl, by decide,
   claim_C5_remove_not_found "/z"
     { status := some "LIST_DISK_FILE_SYSTEMS_SUCCESSFUL",
       fileSystems := [⟨some "/a", some 1, []⟩] }
     { status := none, valid := none, validationlist := none } rfl (by decide)⟩

/-- C6: for every fetched collection containing an item with the target
path, `remove_disk_file_system` issues exactly one write whose collection
is the fetched one with every matching item removed and the rest unchanged
in order (a filter), and reports success when the write response status is
the config-successful code. -/
theorem claim_C6_remove_found (path : String) (r : ListResp)
    (resp : WriteResp)
    (hst : r.status = some "LIST_DISK_FILE_SYSTEMS_SUCCESSFUL")
    (hex : ∃ fs ∈ r.fileSystems, fs.fileSystemPath = some path)
    (hws : resp.status = some "CONFIG_DISK_FILE_SYSTEM_SUCCESSFUL") :
    (removeDiskFileSystem path (.ok r) resp).submitted
        = some (r.fileSystems.filter
            (fun fs => !(fs.fileSystemPath == some path)))
    ∧ "✅ Disk file system removed successfully"
        ∈ (removeDiskFileSystem path (.ok r) resp).lines := by
  have hany : r.fileSystems.any
      (fun fs => fs.fileSystemPath == some path) = true := by
    simp only [List.any_eq_true, beq_iff_eq]
    exact hex
  refine ⟨?_, ?_⟩
  · simp [removeDiskFileSystem, hst, hany]
  · simp [removeDiskFileSystem, hst, hany, hws]

/-- Witness for C6: removing `"/a"` from `[{path: "/a"}, {path: "/b"}]`
with a successful write response. -/
theorem claim_C6_witness :
    ((some "LIST_DISK_FILE_SYSTEMS_SUCCESSFUL" : Option String)
        = some "LIST_DISK_FILE_SYSTEMS_SUCCESSFUL")
    ∧ (∃ fs ∈ [(⟨some "/a", some 1, []⟩ : FSItem), ⟨some "/b", some 2, []⟩],
        fs.fileSystemPath = some "/a")
    ∧ ((some "CONFIG_DISK_FILE_SYSTEM_SUCCESSFUL" : Option String)
        = some "CONFIG_DISK_FILE_SYSTEM_SUCCESSFUL")
    ∧ ((removeDiskFileSystem "/a"
          (.ok { status := some "LIST_DISK_FILE_SYSTEMS_SUCCESSFUL",
                 fileSystems := [⟨some "/a", some 1, []⟩, ⟨some "/b", some 2, []⟩] })
          { status := some "CONFIG_DISK_FILE_SYSTEM_SUCCESSFUL",
            valid := some true, validationlist := none }).submitted
        = some ([(⟨some "/a", some 1, []⟩ : FSItem), ⟨some "/b", some 2, []⟩].filter
            (fun fs => !(fs.fileSystemPath == some "/a")))
      ∧ "✅ Disk file system removed successfully"
          ∈ (removeDiskFileSystem "/a"
              (.ok { status := some "LIST_DISK_FILE_SYSTEMS_SUCCESSFUL",
                     fileSystems := [⟨some "/a", some 1, []⟩, ⟨some "/b", some 2, []⟩] })
              { status := some "CONFIG_DISK_FILE_SYSTEM_SUCCESSFUL",
                valid := some true, validationlist := none }).lines) :=
  ⟨rfl, by decide, rfl,
   claim_C6_remove_found "/a"
     { status := some "LIST_DISK_FILE_SYSTEMS_SUCCESSFUL",
       fileSystems := [⟨some "/a", some 1, []⟩, ⟨some "/b", some 2, []⟩] }
     { status := some "CONFIG_DISK_FILE_SYSTEM_SUCCESSFUL",
       valid := some true, validationlist := none } rfl (by decide) rfl⟩

/-- C1 counterexample: on a fetch transport exception,
`config_disk_file_system` does not abort — it still issues the POST, whose
collection is just the candidate item (the claim states no write is ever
issued after a fetch failure). -/
theorem claim_C1_counterexample :
    (configDiskFileSystem "/a" 5 (Except.error "connection refused")
        { status := none, valid := none, validationlist := none }).submitted
      = some [newFSItem "/a" 5]
    ∧ (configDiskFileSystem "/a" 5 (Except.error "connection refused")
        { status := none, valid := none, validationlist := none }).submitted
      ≠ none := ⟨rfl, by decide⟩

/-- C1 (amended): only `remove_disk_file_system` aborts on a pre-mutation
fetch failure (transport exception or non-success list status), surfacing
the fetch error and issuing no write; `config_disk_file_system` instead
treats a fetch failure as an empty existing collection and still issues a
write containing only the candidate item. -/
theorem claim_C1_amended :
    (∀ (path e : String) (resp : WriteResp),
      (removeDiskFileSystem path (.error e) resp).submitted = none
      ∧ (removeDiskFileSystem path (.error e) resp).lines
          = ["❌ Error retrieving existing file systems: " ++ e])
    ∧ (∀ (path : String) (r : ListResp) (resp : WriteResp),
        r.status ≠ some "LIST_DISK_FILE_SYSTEMS_SUCCESSFUL" →
        (removeDiskFileSystem path (.ok r) resp).submitted = none
        ∧ (removeDiskFileSystem path (.ok r) resp).lines
            = ["❌ Could not retrieve existing file systems to remove "
                ++ pyQ path])
    ∧ (∀ (path : String) (m : Int) (e : String) (resp : WriteResp),
        (configDiskFileSystem path m (.error e) resp).submitted
          = some [newFSItem path m])
    ∧ (∀ (path : String) (m : Int) (r : ListResp) (resp : WriteResp),
        r.status ≠ some "LIST_DISK_FILE_SYSTEMS_SUCCESSFUL" →
        (configDiskFileSystem path m (.ok r) resp).submitted
          = some [newFSItem path m]) := by
  refine ⟨fun path e resp => ⟨rfl, rfl⟩, ?_, fun path m e resp => rfl, ?_⟩
  · intro path r resp h
    have hb : (r.status == some "LIST_DISK_FILE_SYSTEMS_SUCCESSFUL") = false := by
      simp only [beq_eq_false_iff_ne, ne_eq]
      exact h
    exact ⟨by simp [removeDiskFileSystem, hb], by simp [removeDiskFileSystem, hb]⟩
  · intro path m r resp h
    have hb : (r.status == some "LIST_DISK_FILE_SYSTEMS_SUCCESSFUL") = false := by
      simp only [beq_eq_false_iff_ne, ne_eq]
      exact h
    simp [configDiskFileSystem, hb, mergedFileSystems]

/-- Witness for C1 (amended) at a transport error `"boom"` and a failed
list status `"LIST_FAILED"`. -/
theorem claim_C1_witness :
    (removeDiskFileSystem "/a" (.error "boom")
        { status := none, valid := none, validationlist := none }).submitted = none
    ∧ ((some "LIST_FAILED" : Option String)
        ≠ some "LIST_DISK_FILE_SYSTEMS_SUCCESSFUL")
    ∧ (removeDiskFileSystem "/a"
        (.ok { status := some "LIST_FAILED", fileSystems := [] })
        { status := none, valid := none, validationlist := none }).submitted = none
    ∧ (configDiskFileSystem "/a" 5
        (.ok { status := some "LIST_FAILED", fileSystems := [] })
        { status := none, valid := none, validationlist := none }).submitted
      = some [newFSItem "/a" 5] :=
  ⟨(claim_C1_amended.1 "/a" "boom"
      { status := none, valid := none, validationlist := none }).1,
   by decide,
   (claim_C1_amended.2.1 "/a"
      { status := some "LIST_FAILED", fileSystems := [] }
      { status := none, valid := none, validationlist := none } (by decide)).1,
   claim_C1_amended.2.2.2 "/a" 5
      { status := some "LIST_FAILED", fileSystems := [] }
      { status := none, valid := none, validationlist := none } (by decide)⟩

/-- C2 counterexample: a write response with `valid: false` but status
`CONFIG_DISK_FILE_SYSTEM_SUCCESSFUL` is reported as a success by
`config_disk_file_system` (the claim states `valid: false` is always
reported as a failure). -/
theorem claim_C2_counterexample :
    ({ status := some "CONFIG_DISK_FILE_SYSTEM_SUCCESSFUL",
       valid := some false, validationlist := none : WriteResp }).valid
      = some false
    ∧ "✅ Disk file system configured successfully"
        ∈ (configDiskFileSystem "/a" 5
            (.ok { status := some "LIST_DISK_FILE_SYSTEMS_SUCCESSFUL",
                   fileSystems := [] })
            { status := some "CONFIG_DISK_FILE_SYSTEM_SUCCESSFUL",
              valid := some false, validationlist := none }).lines :=
  ⟨rfl, by decide⟩

/-- C2 (amended): the `valid` field does not influence success reporting
in `config_disk_file_system` (line 8 of its output, the first line after
the fixed 7-line header, is the success banner exactly when the response
status equals the config-successful code, for any `valid`), nor in the S3
config operation (which reports the completed message for every
non-exception response); the media-server delete operation does report a
failure whenever `valid` is falsy. -/
theorem claim_C2_amended :
    (∀ (path : String) (m : Int) (fetch : Except String ListResp)
       (resp : WriteResp),
      ((configDiskFileSystem path m fetch resp).lines.drop 7).head?
        = some (if resp.status == some "CONFIG_DISK_FILE_SYSTEM_SUCCESSFUL"
                then "✅ Disk file system configured successfully"
                else "❌ Failed to configure disk file system"))
    ∧ (∀ (aid ak : Option String) (bbr : Option JVal) (bn an : Option String)
         (respText listResult : String),
        optTruthyStr aid = true → optTruthyStr ak = true →
        optTruthyJ bbr = true → optTruthyStr an = true →
        optTruthyStr bn = true →
        (manageAwsS3 "config" aid ak bbr bn an (.ok respText) listResult).message
          = "✅ AWS backup solution configuration operation completed\nResponse: "
            ++ respText)
    ∧ (∀ (n : String) (v : Bool) (resp : WriteResp),
        resp.valid.getD false = false →
        (deleteMediaServer n v resp).message
          = msFailureText ("❌ Failed to delete media server " ++ pyQ n) resp) := by
  refine ⟨?_, ?_, ?_⟩
  · intro path m fetch resp
    by_cases h : (resp.status == some "CONFIG_DISK_FILE_SYSTEM_SUCCESSFUL") = true
    · simp [configDiskFileSystem, h]
    · have hb : (resp.status == some "CONFIG_DISK_FILE_SYSTEM_SUCCESSFUL") = false :=
        Bool.not_eq_true _ ▸ h
      simp [configDiskFileSystem, hb]
  · intro aid ak bbr bn an respText listResult h1 h2 h3 h4 h5
    simp [manageAwsS3, h1, h2, h3, h4, h5]
  · intro n v resp hv
    simp [deleteMediaServer, msResult, hv]

/-- Witness for C2 (amended): a config response with `valid: false` and
success status, an S3 config with truthy arguments, and a media-server
delete with a falsy `valid`. -/
theorem claim_C2_witness :
    (((configDiskFileSystem "/a" 5
          (.ok { status := some "LIST_DISK_FILE_SYSTEMS_SUCCESSFUL",
                 fileSystems := [] })
          { status := some "CONFIG_DISK_FILE_SYSTEM_SUCCESSFUL",
            valid := some false, validationlist := none }).lines.drop 7).head?
      = some (if ({ status := some "CONFIG_DISK_FILE_SYSTEM_SUCCESSFUL",
                    valid := some false,
                    validationlist := none : WriteResp }).status
                  == some "CONFIG_DISK_FILE_SYSTEM_SUCCESSFUL"
              then "✅ Disk file system configured successfully"
              else "❌ Failed to configure disk file system"))
    ∧ optTruthyStr (some "id") = true
    ∧ optTruthyJ (some (JVal.str "b")) = true
    ∧ ((manageAwsS3 "config" (some "id") (some "key") (some (JVal.str "b"))
          (some "bn") (some "acct") (.ok "resp") "").message
        = "✅ AWS backup solution configuration operation completed\nResponse: "
          ++ "resp")
    ∧ (({ status := none, valid := some false,
          validationlist := none : WriteResp }).valid.getD false = false)
    ∧ ((deleteMediaServer "ms1" false
          { status := none, valid := some false, validationlist := none }).message
        = msFailureText ("❌ Failed to delete media server " ++ pyQ "ms1")
            { status := none, valid := some false, validationlist := none }) :=
  ⟨claim_C2_amended.1 "/a" 5
     (.ok { status := some "LIST_DISK_FILE_SYSTEMS_SUCCESSFUL",
            fileSystems := [] })
     { status := some "CONFIG_DISK_FILE_SYSTEM_SUCCESSFUL",
       valid := some false, validationlist := none },
   by decide, by decide,
   claim_C2_amended.2.1 (some "id") (some "key") (some (JVal.str "b"))
     (some "bn") (some "acct") "resp" "" (by decide) (by decide) (by decide)
     (by decide) (by decide),
   rfl,
   claim_C2_amended.2.2 "ms1" false
     { status := none, valid := some false, validationlist := none } rfl⟩

/-- Every server-validation error message appears in the validation-details
block. -/
theorem mem_validationLines_server (resp : WriteResp) (v : VList)
    (hvl : resp.validationlist = some v) {e : VErr}
    (he : e ∈ v.serverValidationList) :
    ("❌ Server Error: " ++ e.message.getD "Unknown error")
      ∈ validationLines resp := by
  have hne : v.serverValidationList.isEmpty = false := by
    cases h : v.serverValidationList with
    | nil => rw [h] at he; simp at he
    | cons a t => simp
  simp only [validationLines, hvl, hne, Bool.false_eq_true, if_neg,
    not_false_iff]
  refine List.mem_append.mpr (Or.inl (List.mem_append.mpr (Or.inr ?_)))
  exact List.mem_flatMap.mpr ⟨e, he, by simp⟩

/-- Every client-validation error message appears in the
validation-details block. -/
theorem mem_validationLines_client (resp : WriteResp) (v : VList)
    (hvl : resp.validationlist = some v) {e : VErr}
    (he : e ∈ v.clientValidationList) :
    ("❌ Client Error: " ++ e.message.getD "Unknown error")
      ∈ validationLines resp := by
  have hne : v.clientValidationList.isEmpty = false := by
    cases h : v.clientValidationList with
    | nil => rw [h] at he; simp at he
    | cons a t => simp
  simp only [validationLines, hvl, hne, Bool.false_eq_true, if_neg,
    not_false_iff]
  refine List.mem_append.mpr (Or.inr ?_)
  exact List.mem_map_of_mem _ he

/-- On a failed write, the config output embeds the whole
validation-details block. -/
theorem mem_config_lines_of_validation (path : String) (m : Int)
    (fetch : Except String ListResp) (resp : WriteResp) (l : String)
    (hfail : (resp.status == some "CONFIG_DISK_FILE_SYSTEM_SUCCESSFUL") = false)
    (hl : l ∈ validationLines resp) :
    l ∈ (configDiskFileSystem path m fetch resp).lines := by
  simp only [configDiskFileSystem, hfail, Bool.false_eq_true, if_neg,
    not_false_iff]
  refine List.mem_append.mpr (Or.inr (List.mem_append.mpr (Or.inl ?_)))
  exact List.mem_append.mpr (Or.inr hl)

/-- On a failed write after a successful match, the remove output embeds
the whole validation-details block. -/
theorem mem_remove_lines_of_validation (path : String) (r : ListResp)
    (resp : WriteResp) (l : String)
    (hst : r.status = some "LIST_DISK_FILE_SYSTEMS_SUCCESSFUL")
    (hany : r.fileSystems.any (fun fs => fs.fileSystemPath == some path) = true)
    (hfail : (resp.status == some "CONFIG_DISK_FILE_SYSTEM_SUCCESSFUL") = false)
    (hl : l ∈ validationLines resp) :
    l ∈ (removeDiskFileSystem path (.ok r) resp).lines := by
  simp only [removeDiskFileSystem, hst, hany, hfail, beq_self_eq_true,
    Bool.not_true, Bool.false_eq_true, if_neg, not_false_iff]
  refine List.mem_append.mpr (Or.inr (List.mem_append.mpr (Or.inl ?_)))
  exact List.mem_append.mpr (Or.inr hl)

set_option maxRecDepth 20000 in
/-- C7 counterexample: a write response with `valid: false` and a
non-empty `serverValidationList`, but with the config-successful status,
is reported as success by `config_disk_file_system` and its error message
`"boom"` appears nowhere in the returned string (the claim states every
error message is always included). -/
theorem claim_C7_counterexample :
    ({ status := some "CONFIG_DISK_FILE_SYSTEM_SUCCESSFUL",
       valid := some false,
       validationlist := some ⟨[⟨some "E1", some "boom", some "SEVERE"⟩], []⟩ :
       WriteResp }).valid = some false
    ∧ ({ status := some "CONFIG_DISK_FILE_SYSTEM_SUCCESSFUL",
         valid := some false,
         validationlist := some ⟨[⟨some "E1", some "boom", some "SEVERE"⟩], []⟩ :
         WriteResp }).validationlist
        = some ⟨[⟨some "E1", some "boom", some "SEVERE"⟩], []⟩
    ∧ containsSub
        (configDiskFileSystemMsg "/a" 5
          (.ok { status := some "LIST_DISK_FILE_SYSTEMS_SUCCESSFUL",
                 fileSystems := [] })
          { status := some "CONFIG_DISK_FILE_SYSTEM_SUCCESSFUL",
            valid := some false,
            validationlist := some ⟨[⟨some "E1", some "boom", some "SEVERE"⟩], []⟩ })
        "boom" = false :=
  ⟨rfl, rfl, by decide⟩

/-- C7 (amended): failure is detected by the status field, not by
`valid` — for every write response whose status is not the
config-successful code and which carries a validation list, the strings
returned by `config_disk_file_system` and `remove_disk_file_system`
contain the message text of every server and of every client validation
error. -/
theorem claim_C7_amended (path : String) (m : Int)
    (fetch : Except String ListResp) (r : ListResp) (resp : WriteResp)
    (v : VList)
    (hfail : resp.status ≠ some "CONFIG_DISK_FILE_SYSTEM_SUCCESSFUL")
    (hvl : resp.validationlist = some v)
    (hst : r.status = some "LIST_DISK_FILE_SYSTEMS_SUCCESSFUL")
    (hex : ∃ fs ∈ r.fileSystems, fs.fileSystemPath = some path) :
    (∀ e ∈ v.serverValidationList,
      ("❌ Server Error: " ++ e.message.getD "Unknown error")
        ∈ (configDiskFileSystem path m fetch resp).lines)
    ∧ (∀ e ∈ v.clientValidationList,
      ("❌ Client Error: " ++ e.message.getD "Unknown error")
        ∈ (configDiskFileSystem path m fetch resp).lines)
    ∧ (∀ e ∈ v.serverValidationList,
      ("❌ Server Error: " ++ e.message.getD "Unknown error")
        ∈ (removeDiskFileSystem path (.ok r) resp).lines)
    ∧ (∀ e ∈ v.clientValidationList,
      ("❌ Client Error: " ++ e.message.getD "Unknown error")
        ∈ (removeDiskFileSystem path (.ok r) resp).lines) := by
  have hb : (resp.status == some "CONFIG_DISK_FILE_SYSTEM_SUCCESSFUL") = false := by
    simp only [beq_eq_false_iff_ne, ne_eq]
    exact hfail
  have hany : r.fileSystems.any
      (fun fs => fs.fileSystemPath == some path) = true := by
    simp only [List.any_eq_true, beq_iff_eq]
    exact hex
  refine ⟨?_, ?_, ?_, ?_⟩
  · intro e he
    exact mem_config_lines_of_validation path m fetch resp _ hb
      (mem_validationLines_server resp v hvl he)
  · intro e he
    exact mem_config_lines_of_validation path m fetch resp _ hb
      (mem_validationLines_client resp v hvl he)
  · intro e he
    exact mem_remove_lines_of_validation path r resp _ hst hany hb
      (mem_validationLines_server resp v hvl he)
  · intro e he
    exact mem_remove_lines_of_validation path r resp _ hst hany hb
      (mem_validationLines_client resp v hvl he)

/-- Witness for C7 (amended) at a failed write with one server error and
one client error. -/
theorem claim_C7_witness :
    ((some "CONFIG_FAILED" : Option String)
        ≠ some "CONFIG_DISK_FILE_SYSTEM_SUCCESSFUL")
    ∧ ((some "LIST_DISK_FILE_SYSTEMS_SUCCESSFUL" : Option String)
        = some "LIST_DISK_FILE_SYSTEMS_SUCCESSFUL")
    ∧ (∃ fs ∈ [(⟨some "/a", some 1, []⟩ : FSItem)],
        fs.fileSystemPath = some "/a")
    ∧ (∀ e ∈ [(⟨some "E1", some "server boom", some "SEVERE"⟩ : VErr)],
        ("❌ Server Error: " ++ e.message.getD "Unknown error")
          ∈ (configDiskFileSystem "/a" 5
              (.ok { status := some "LIST_DISK_FILE_SYSTEMS_SUCCESSFUL",
                     fileSystems := [⟨some "/a", some 1, []⟩] })
              { status := some "CONFIG_FAILED", valid := some false,
                validationlist := some ⟨[⟨some "E1", some "server boom", some "SEVERE"⟩],
                  [⟨some "E2", some "client boom", none⟩]⟩ }).lines)
    ∧ (∀ e ∈ [(⟨some "E2", some "client boom", none⟩ : VErr)],
        ("❌ Client Error: " ++ e.message.getD "Unknown error")
          ∈ (removeDiskFileSystem "/a"
              (.ok { status := some "LIST_DISK_FILE_SYSTEMS_SUCCESSFUL",
                     fileSystems := [⟨some "/a", some 1, []⟩] })
              { status := some "CONFIG_FAILED", valid := some false,
                validationlist := some ⟨[⟨some "E1", some "server boom", some "SEVERE"⟩],
                  [⟨some "E2", some "client boom", none⟩]⟩ }).lines) :=
  ⟨by decide, rfl, by decide,
   (claim_C7_amended "/a" 5
      (.ok { status := some "LIST_DISK_FILE_SYSTEMS_SUCCESSFUL",
             fileSystems := [⟨some "/a", some 1, []⟩] })
      { status := some "LIST_DISK_FILE_SYSTEMS_SUCCESSFUL",
        fileSystems := [⟨some "/a", some 1, []⟩] }
      { status := some "CONFIG_FAILED", valid := some false,
        validationlist := some ⟨[⟨some "E1", some "server boom", some "SEVERE"⟩],
                  [⟨some "E2", some "client boom", none⟩]⟩ }
      ⟨[⟨some "E1", some "server boom", some "SEVERE"⟩],
       [⟨some "E2", some "client boom", none⟩]⟩
      (by decide) rfl rfl (by decide)).1,
   (claim_C7_amended "/a" 5
      (.ok { status := some "LIST_DISK_FILE_SYSTEMS_SUCCESSFUL",
             fileSystems := [⟨some "/a", some 1, []⟩] })
      { status := some "LIST_DISK_FILE_SYSTEMS_SUCCESSFUL",
        fileSystems := [⟨some "/a", some 1, []⟩] }
      { status := some "CONFIG_FAILED", valid := some false,
        validationlist := some ⟨[⟨some "E1", some "server boom", some "SEVERE"⟩],
                  [⟨some "E2", some "client boom", none⟩]⟩ }
      ⟨[⟨some "E1", some "server boom", some "SEVERE"⟩],
       [⟨some "E2", some "client boom", none⟩]⟩
      (by decide) rfl rfl (by decide)).2.2.2⟩

/-- The submitted payload of the S3 config operation: either no write was
issued (a missing required argument) or the payload is the `configAwsRest`
object of lines 639-649. -/
theorem manageAwsS3_config_submitted (aid ak : Option String)
    (bbr : Option JVal) (bn an : Option String) (wr : Except String String)
    (lr : String) :
    (manageAwsS3 "config" aid ak bbr bn an wr lr).submitted = none
    ∨ (manageAwsS3 "config" aid ak bbr bn an wr lr).submitted
        = some { accessId := aid.getD "", accessKey := ak.getD "",
                 bucketsByRegion := bbr.getD JVal.null,
                 bucketName := bn.getD "", acctName := an.getD "",
                 viewpoint := true, viewpointBucketRegion := true } := by
  cases h1 : optTruthyStr aid with
  | false => exact Or.inl (by simp [manageAwsS3, h1])
  | true =>
  cases h2 : optTruthyStr ak with
  | false => exact Or.inl (by simp [manageAwsS3, h1, h2])
  | true =>
  cases h3 : optTruthyJ bbr with
  | false => exact Or.inl (by simp [manageAwsS3, h1, h2, h3])
  | true =>
  cases h4 : optTruthyStr an with
  | false => exact Or.inl (by simp [manageAwsS3, h1, h2, h3, h4])
  | true =>
  cases h5 : optTruthyStr bn with
  | false => exact Or.inl (by simp [manageAwsS3, h1, h2, h3, h4, h5])
  | true =>
  cases wr with
  | ok t => exact Or.inr (by simp [manageAwsS3, h1, h2, h3, h4, h5])
  | error e => exact Or.inr (by simp [manageAwsS3, h1, h2, h3, h4, h5])

/-- C8 counterexample: the media-server delete route is not an
unimplemented placeholder — invoked with a server name, it issues a DELETE
request to the media-server endpoint (the claim states no network request
is made). -/
theorem claim_C8_counterexample :
    (manageMediaServerDeleteRoute (some "ms1") (some false)
        { status := none, valid := some true, validationlist := none }).requests
      = [{ method := "DELETE", endpoint := "dsa/components/mediaservers/ms1",
           params := [], payload := none }]
    ∧ (manageMediaServerDeleteRoute (some "ms1") (some false)
        { status := none, valid := some true,
          validationlist := none }).requests.length = 1 :=
  ⟨rfl, rfl⟩

/-- C8 (amended): the S3 `remove` and `delete_all` operations return
"not implemented" placeholders and issue no write; the media-server delete
operation is implemented and issues exactly one DELETE request to
`dsa/components/mediaservers/{server_name}`. -/
theorem claim_C8_amended :
    (∀ (aid ak : Option String) (bbr : Option JVal) (bn an : Option String)
       (wr : Except String String) (lr : String),
      (manageAwsS3 "remove" aid ak bbr bn an wr lr).submitted = none
      ∧ (manageAwsS3 "remove" aid ak bbr bn an wr lr).message
          = "❌ Error: " ++ pyQ "remove"
            ++ " operation is not implemented yet for AWS S3 Configuration")
    ∧ (∀ (aid ak : Option String) (bbr : Option JVal) (bn an : Option String)
         (wr : Except String String) (lr : String),
        (manageAwsS3 "delete_all" aid ak bbr bn an wr lr).submitted = none
        ∧ (manageAwsS3 "delete_all" aid ak bbr bn an wr lr).message
            = "❌ Error: " ++ pyQ "delete_all"
              ++ " operation is not implemented yet for AWS S3 Configuration")
    ∧ (∀ (n : String) (v : Option Bool) (resp : WriteResp),
        optTruthyStr (some n) = true →
        (manageMediaServerDeleteRoute (some n) v resp).requests
          = [{ method := "DELETE",
               endpoint := "dsa/components/mediaservers/" ++ n,
               params := if v.getD false then [("virtual", "true")] else [],
               payload := none }]) := by
  refine ⟨fun aid ak bbr bn an wr lr => ⟨rfl, rfl⟩,
          fun aid ak bbr bn an wr lr => ⟨rfl, rfl⟩, ?_⟩
  intro n v resp h
  simp [manageMediaServerDeleteRoute, h, deleteMediaServer]

/-- Witness for C8 (amended) at server name `"ms1"` with a virtual
delete. -/
theorem claim_C8_witness :
    ((manageAwsS3 "remove" none none none none none (.ok "") "").submitted
      = none)
    ∧ ((manageAwsS3 "delete_all" none none none none none (.ok "") "").submitted
      = none)
    ∧ (optTruthyStr (some "ms1") = true)
    ∧ ((manageMediaServerDeleteRoute (some "ms1") (some true)
          { status := none, valid := some true, validationlist := none }).requests
        = [{ method := "DELETE",
             endpoint := "dsa/components/mediaservers/" ++ "ms1",
             params := if (some true : Option Bool).getD false
                       then [("virtual", "true")] else [],
             payload := none }]) :=
  ⟨(claim_C8_amended.1 none none none none none (.ok "") "").1,
   (claim_C8_amended.2.1 none none none none none (.ok "") "").1,
   by decide,
   claim_C8_amended.2.2 "ms1" (some true)
     { status := none, valid := some true, validationlist := none } (by decide)⟩

/-- C9: the S3 MCP handler hardcodes `bucketName="tdedsabucket01"`: for
operation `"config"`, two calls differing only in the caller-supplied
`bucketName` produce identical operation outcomes (request payload and
message), any issued payload carries the constant bucket name, and the
argument shows up only in the returned metadata. -/
theorem claim_C9_bucket_hardcoded (aid ak : Option String) (bbr : Option JVal)
    (b1 b2 an : Option String) (wr : Except String String) (lr : String) :
    ((handleBarManageAWSS3 "config" aid ak bbr b1 an wr lr).1
        = (handleBarManageAWSS3 "config" aid ak bbr b2 an wr lr).1)
    ∧ ((handleBarManageAWSS3 "config" aid ak bbr b1 an wr lr).1.submitted.all
        (fun p => p.bucketName == "tdedsabucket01") = true)
    ∧ ((handleBarManageAWSS3 "config" aid ak bbr b1 an wr lr).2
        = { (handleBarManageAWSS3 "config" aid ak bbr b2 an wr lr).2 with
            bucketName := b1 }) := by
  refine ⟨rfl, ?_, rfl⟩
  have h := manageAwsS3_config_submitted aid ak bbr (some "tdedsabucket01")
    an wr lr
  have hsub : (handleBarManageAWSS3 "config" aid ak bbr b1 an wr lr).1.submitted
      = (manageAwsS3 "config" aid ak bbr (some "tdedsabucket01") an wr lr).submitted :=
    rfl
  rcases h with h | h
  · rw [hsub, h]
    rfl
  · rw [hsub, h]
    rfl

/-- C10: the media-server add payload contains exactly the fields
`serverName`, `port` and `ipInfo`; the `pool_shared_pipes` argument has no
observable effect — two add calls differing only in it produce the same
requests and the same result. -/
theorem claim_C10_pool_shared_pipes_unused (n : String) (port : Int)
    (ips : List PyStrDict) (k1 k2 : Int) (resp : WriteResp) :
    addMediaServer n port ips k1 resp = addMediaServer n port ips k2 resp
    ∧ ((addMediaServer n port ips k1 resp).requests.all
        (fun req => req.payload.map (fun l => l.map Prod.fst)
            == some ["serverName", "port", "ipInfo"])) = true := by
  refine ⟨rfl, ?_⟩
  simp only [addMediaServer]
  split
  · rfl
  · split
    · rfl
    · split
      · rfl
      · split
        · rfl
        · rfl

end BarTools
